import Mathlib

/-!
# Shallow embedding of the authentication subsystem

This file embeds the core logic of the repository (an email/password +
Google authentication subsystem for a Next.js app) and proves properties
about it.

Embedded source files:
* `src/lib/rate-limit.ts` — `RateLimiter.checkRateLimit`, `RateLimiter.recordAttempt`
* `src/lib/auth.ts` — the `authorize` callback of the credentials provider
* `src/app/api/auth/verify-otp/route.ts` — `POST`
* `src/app/api/reset-password/route.ts` — `POST`
* `src/app/api/auth/forgot-password/route.ts` — `POST`
* `src/app/api/auth/resend-otp/route.ts` — `POST`

Modelling conventions:
* Timestamps are `Int` milliseconds since the epoch (JS `Date.getTime()`).
* Database tables are association lists; `db.select().where(...).limit(1)`
  is `List.find?`, `db.update().where(...)` is `List.map` guarded by the
  same condition as the SQL `where` clause, `db.insert` is list append
  (rows are returned in insertion order, which is how an unordered
  `select ... limit 1` behaves on the live tables here: each route reads
  rows it or its sibling routes appended).
* External primitives are parameters: `bcrypt.compare` is an opaque
  `String → String → Bool` argument, `bcrypt.hash(newPassword, 12)` is an
  argument carrying the produced hash, `Math.random`-generated OTP codes
  and `defaultRandom()` row ids are arguments, and the Resend email
  delivery outcome (`sendVerificationEmail` / `sendPasswordResetEmail`
  return `true`/`false`) is a `Bool` argument.
* `createdAt` / `updatedAt` bookkeeping columns are omitted; no property
  here depends on them.
-/

/-- A row of the `users` table (`src/lib/db/schemas/user.ts`).
`password` is nullable (federated accounts), `emailVerified` is a nullable
timestamp, `isActive` defaults to `false`; the routes test both with JS
truthiness, under which `null` is falsy and every `Date` is truthy. -/
structure User where
  id : Nat
  email : String
  password : Option String
  emailVerified : Option Int
  isActive : Bool
  deriving Repr, DecidableEq

/-- A row of the `verification_tokens` table (`src/unnamed/part_002`):
a 6-digit OTP scoped to an email and a purpose tag
(`email_verification` or `password_reset`), with expiry and a used flag. -/
structure VerificationToken where
  id : Nat
  email : String
  token : String
  type : String
  expiresAt : Int
  used : Bool
  deriving Repr, DecidableEq

/-- A row of the `accounts` table (linked federated accounts). -/
structure Account where
  userId : Nat
  provider : String
  providerAccountId : String
  deriving Repr, DecidableEq

/-- The durable store shared by the OTP routes: the `users` and
`verification_tokens` tables. -/
structure AuthState where
  users : List User
  tokens : List VerificationToken
  deriving Repr, DecidableEq

/-- The `type` tag for email-verification OTPs. -/
def emailVerificationType : String := "email_verification"

/-- The `type` tag for password-reset OTPs. -/
def passwordResetType : String := "password_reset"

/-- OTP lifetime: `10 * 60 * 1000` ms, as in every issuing route. -/
def otpTtlMs : Int := 10 * 60 * 1000

/-- The IST offset added by `verify-otp` when stamping `emailVerified`:
`5.5 * 60 * 60 * 1000` ms. -/
def istOffsetMs : Int := 19800000

/-- `db.select().from(users).where(eq(users.email, email)).limit(1)`. -/
def findUser (users : List User) (email : String) : Option User :=
  users.find? (fun u => u.email == email)

/-- The `where` clause of the token lookup shared by `verify-otp` and
`reset-password`: matching email, code, purpose tag, and `used = false`. -/
def tokenMatches (email otp ty : String) (t : VerificationToken) : Bool :=
  t.email == email && t.token == otp && t.type == ty && !t.used

/-- `db.select().from(verificationTokens).where(and(email, token, type,
used=false)).limit(1)`. -/
def findValidToken (tokens : List VerificationToken) (email otp ty : String) :
    Option VerificationToken :=
  tokens.find? (tokenMatches email otp ty)

/-- `db.update(verificationTokens).set({used: true}).where(eq(id, tid))`. -/
def markTokenUsed (tokens : List VerificationToken) (tid : Nat) :
    List VerificationToken :=
  tokens.map (fun t => if t.id == tid then { t with used := true } else t)

/-- The `where` clause of the bulk invalidation update: matching email,
purpose tag, and `used = false`. -/
def unusedFor (email ty : String) (t : VerificationToken) : Bool :=
  t.email == email && t.type == ty && !t.used

/-- `db.update(verificationTokens).set({used: true}).where(and(email, type,
used=false))` — invalidates every live code for an (email, purpose) pair. -/
def markAllUnusedUsed (tokens : List VerificationToken) (email ty : String) :
    List VerificationToken :=
  tokens.map (fun t => if unusedFor email ty t then { t with used := true } else t)

/-- `db.update(users).set({isActive: true, emailVerified: t}).where(eq(email))`
— the account-activation update of `verify-otp`. -/
def activateUser (users : List User) (email : String) (t : Int) : List User :=
  users.map (fun u =>
    if u.email == email then { u with isActive := true, emailVerified := some t } else u)

/-- `db.update(users).set({password: hash}).where(eq(email))` — the password
update of `reset-password`. -/
def setUserPassword (users : List User) (email hash : String) : List User :=
  users.map (fun u => if u.email == email then { u with password := some hash } else u)

/-- One database write, in the order a route issues it.  Traces of these
writes let us look at the intermediate states a route passes through when
it fails midway between two writes. -/
inductive StoreWrite where
  | markUsed (tid : Nat)
  | markAllUnused (email ty : String)
  | activate (email : String) (t : Int)
  | setPassword (email hash : String)
  | insertToken (tok : VerificationToken)
  deriving Repr, DecidableEq

/-- Apply one write to the store. -/
def applyWrite (s : AuthState) : StoreWrite → AuthState
  | .markUsed tid => { s with tokens := markTokenUsed s.tokens tid }
  | .markAllUnused e ty => { s with tokens := markAllUnusedUsed s.tokens e ty }
  | .activate e t => { s with users := activateUser s.users e t }
  | .setPassword e h => { s with users := setUserPassword s.users e h }
  | .insertToken tok => { s with tokens := s.tokens ++ [tok] }

/-- Apply a sequence of writes left to right. -/
def applyWrites (s : AuthState) (ws : List StoreWrite) : AuthState :=
  ws.foldl applyWrite s

/-- Outcome of the `verify-otp` route; one constructor per distinct
response of `src/app/api/auth/verify-otp/route.ts`. -/
inductive VerifyOtpResult where
  | invalidInput
  | userNotFound
  | alreadyVerified
  | invalidOrExpired
  | codeExpired
  | verified
  deriving Repr, DecidableEq

/-- The `message` string of each `verify-otp` response. -/
def verifyOtpMessage : VerifyOtpResult → String
  | .invalidInput => "Invalid input"
  | .userNotFound => "User not found"
  | .alreadyVerified => "Email already verified"
  | .invalidOrExpired => "Invalid or expired verification code"
  | .codeExpired => "Verification code has expired"
  | .verified => "Email verified successfully"

/-- `POST /api/auth/verify-otp` (`src/app/api/auth/verify-otp/route.ts`),
returning its response classification and the trace of database writes it
performs, in order.  The zod schema demands a 6-digit numeric `otp`; the
user lookup, the already-verified gate (`isActive || emailVerified`), the
token lookup, and the expiry check follow the source order.  On success it
first marks the token used, then activates the user. -/
def verifyOtp (s : AuthState) (email otp : String) (now : Int) :
    VerifyOtpResult × List StoreWrite :=
  if otp.length == 6 && otp.data.all Char.isDigit then
    match findUser s.users email with
    | none => (.userNotFound, [])
    | some u =>
      if u.isActive || u.emailVerified.isSome then (.alreadyVerified, [])
      else
        match findValidToken s.tokens email otp emailVerificationType with
        | none => (.invalidOrExpired, [])
        | some tok =>
          if tok.expiresAt < now then (.codeExpired, [])
          else (.verified, [.markUsed tok.id, .activate email (now + istOffsetMs)])
  else (.invalidInput, [])

/-- `verify-otp` run to completion: response plus final store. -/
def verifyOtpRun (s : AuthState) (email otp : String) (now : Int) :
    VerifyOtpResult × AuthState :=
  let r := verifyOtp s email otp now
  (r.1, applyWrites s r.2)

/-- Outcome of the `reset-password` route; one constructor per distinct
response of `src/app/api/reset-password/route.ts`. -/
inductive ResetPasswordResult where
  | invalidInput
  | invalidRequest
  | invalidOrExpired
  | codeExpired
  | resetOk
  deriving Repr, DecidableEq

/-- The `message` string of each `reset-password` response. -/
def resetPasswordMessage : ResetPasswordResult → String
  | .invalidInput => "Invalid input"
  | .invalidRequest => "Invalid request"
  | .invalidOrExpired => "Invalid or expired verification code"
  | .codeExpired => "Verification code has expired"
  | .resetOk => "Password reset successful. You can now log in with your new password."

/-- `POST /api/reset-password` (`src/app/api/reset-password/route.ts`),
returning its response classification and the ordered trace of database
writes.  The zod schema demands `otp` of length 6 and a password of at
least 6 characters.  `hashedPassword` stands for the externally computed
`bcrypt.hash(newPassword, 12)`.  On the success path the source updates
the user's password FIRST, then marks the consumed token used, then bulk
invalidates any remaining unused reset tokens. -/
def resetPassword (s : AuthState) (email otp newPassword hashedPassword : String)
    (now : Int) : ResetPasswordResult × List StoreWrite :=
  if otp.length == 6 && 6 ≤ newPassword.length then
    match findUser s.users email with
    | none => (.invalidRequest, [])
    | some _u =>
      match findValidToken s.tokens email otp passwordResetType with
      | none => (.invalidOrExpired, [])
      | some tok =>
        if tok.expiresAt < now then (.codeExpired, [])
        else (.resetOk,
          [.setPassword email hashedPassword,
           .markUsed tok.id,
           .markAllUnused email passwordResetType])
  else (.invalidInput, [])

/-- `reset-password` run to completion: response plus final store. -/
def resetPasswordRun (s : AuthState) (email otp newPassword hashedPassword : String)
    (now : Int) : ResetPasswordResult × AuthState :=
  let r := resetPassword s email otp newPassword hashedPassword now
  (r.1, applyWrites s r.2)

/-- Outcome of the OTP consume step (spec §4.3 `consume`), exactly the
token part shared by `verify-otp` (lines 32–64) and `reset-password`:
look up an unused matching record, reject if absent, reject if expired,
otherwise mark it used. -/
inductive ConsumeResult where
  | ok (tid : Nat)
  | invalidOrExpired
  | expired
  deriving Repr, DecidableEq

/-- The consume step on the token table: the lookup
`where(and(email, token, type, used=false)) limit 1`, the
`new Date() > token.expiresAt` check, and the `set({used: true})` update,
as implemented inline by `verify-otp` and `reset-password`. -/
def consume (tokens : List VerificationToken) (email ty otp : String) (now : Int) :
    ConsumeResult × List VerificationToken :=
  match findValidToken tokens email otp ty with
  | none => (.invalidOrExpired, tokens)
  | some tok =>
    if tok.expiresAt < now then (.expired, tokens)
    else (.ok tok.id, markTokenUsed tokens tok.id)

/-- A freshly inserted password-reset token row, as built by
`src/app/api/auth/forgot-password/route.ts` (expiry = now + 10 minutes,
`used: false`); `tid` stands for the `defaultRandom()` row id. -/
def newResetToken (email otp : String) (now : Int) (tid : Nat) : VerificationToken :=
  { id := tid, email := email, token := otp, type := passwordResetType,
    expiresAt := now + otpTtlMs, used := false }

/-- A freshly inserted email-verification token row, as built by
`src/app/api/auth/resend-otp/route.ts`. -/
def newVerificationToken (email otp : String) (now : Int) (tid : Nat) :
    VerificationToken :=
  { id := tid, email := email, token := otp, type := emailVerificationType,
    expiresAt := now + otpTtlMs, used := false }

/-- Outcome of the `auth/forgot-password` route; one constructor per
distinct response of `src/app/api/auth/forgot-password/route.ts`. -/
inductive ForgotPasswordResult where
  | maybeSent
  | notVerified
  | emailFailed
  | sent
  deriving Repr, DecidableEq

/-- `POST /api/auth/forgot-password`
(`src/app/api/auth/forgot-password/route.ts`): the password-reset issue
operation.  `otp` stands for the `Math.random()`-generated 6-digit code
and `deliveryOk` for the boolean result of `sendPasswordResetEmail`.
NOTE the source order: it invalidates prior unused reset tokens, INSERTS
the new token row, and only then attempts email delivery; a delivery
failure yields a 500 response but the insert has already been issued. -/
def forgotPassword (s : AuthState) (email otp : String) (now : Int) (tid : Nat)
    (deliveryOk : Bool) : ForgotPasswordResult × AuthState :=
  match findUser s.users email with
  | none => (.maybeSent, s)
  | some u =>
    if u.isActive then
      let tokens2 := markAllUnusedUsed s.tokens email passwordResetType
        ++ [newResetToken email otp now tid]
      if deliveryOk then (.sent, { s with tokens := tokens2 })
      else (.emailFailed, { s with tokens := tokens2 })
    else (.notVerified, s)

/-- Outcome of the `resend-otp` route; one constructor per distinct
response of `src/app/api/auth/resend-otp/route.ts`. -/
inductive ResendOtpResult where
  | userNotFound
  | alreadyVerified
  | emailFailed
  | sent
  deriving Repr, DecidableEq

/-- `POST /api/auth/resend-otp` (`src/app/api/auth/resend-otp/route.ts`):
the email-verification issue operation.  Unlike `forgotPassword`, this
route sends the email FIRST and inserts the new token row only when
delivery reported success — though the bulk invalidation of prior unused
codes has already been issued either way. -/
def resendOtp (s : AuthState) (email otp : String) (now : Int) (tid : Nat)
    (deliveryOk : Bool) : ResendOtpResult × AuthState :=
  match findUser s.users email with
  | none => (.userNotFound, s)
  | some u =>
    if u.isActive then (.alreadyVerified, s)
    else
      let tokens1 := markAllUnusedUsed s.tokens email emailVerificationType
      if deliveryOk then
        (.sent, { s with tokens := tokens1 ++ [newVerificationToken email otp now tid] })
      else (.emailFailed, { s with tokens := tokens1 })

/-- The `authorize` rejection messages of `src/lib/auth.ts`, one per
thrown `Error` on a non-success verifier outcome. -/
def missingCredentialsMessage : String := "Email and password are required"

/-- Message thrown for both the user-not-found and the wrong-password
classifications. -/
def invalidCredentialsMessage : String := "Invalid credentials"

/-- Message thrown when the account has no password but a linked Google
account. -/
def googleLinkedMessage : String :=
  "This account is linked to Google. Please use Google to sign in, or contact support to set up a password."

/-- Message thrown when the account has no password and no linked Google
account. -/
def incompleteAccountMessage : String := "Account setup incomplete. Please contact support."

/-- Message thrown when the account is not activated (email unverified). -/
def notActivatedMessage : String := "Please verify your email address before logging in"

/-- Outcome of the credentials `authorize` callback: either a thrown
`Error` carrying a user-facing message, or the returned user id. -/
inductive AuthorizeResult where
  | failure (message : String)
  | success (userId : Nat)
  deriving Repr, DecidableEq

/-- `credentials.email.toLowerCase().trim()`, carried out on the
character list: lowercase every character, then strip leading and
trailing whitespace. -/
def normalizeEmail (email : String) : String :=
  ⟨(((email.data.map Char.toLower).dropWhile Char.isWhitespace).reverse.dropWhile
      Char.isWhitespace).reverse⟩

/-- The Google-link lookup of `authorize`:
`select from accounts where userId = uid and provider = 'google' limit 1`,
tested for non-emptiness. -/
def hasGoogleAccount (accounts : List Account) (uid : Nat) : Bool :=
  (accounts.find? (fun a => a.userId == uid && a.provider == "google")).isSome

/-- The credential-verifier portion of the `authorize` callback in
`src/lib/auth.ts`: the `!credentials?.email || !credentials?.password`
guard (JS falsiness: the empty string is rejected), email normalization,
user lookup, the no-password / Google-link classification, the
`isActive` gate, and the bcrypt comparison.  `bcryptCompare` stands for
the external `bcrypt.compare`.  The rate-limit admission gate that runs
before this portion is modelled separately by `checkRateLimit` below;
`authorize` here is the path taken when both limiters allow. -/
def authorize (users : List User) (accounts : List Account)
    (bcryptCompare : String → String → Bool) (emailRaw password : String) :
    AuthorizeResult :=
  if emailRaw == "" || password == "" then .failure missingCredentialsMessage
  else
    match findUser users (normalizeEmail emailRaw) with
    | none => .failure invalidCredentialsMessage
    | some u =>
      match u.password with
      | none =>
        if hasGoogleAccount accounts u.id then .failure googleLinkedMessage
        else .failure incompleteAccountMessage
      | some hash =>
        if u.isActive then
          if bcryptCompare password hash then .success u.id
          else .failure invalidCredentialsMessage
        else .failure notActivatedMessage

/-- Configuration of one `RateLimiter` instance (`src/lib/rate-limit.ts`). -/
structure RateLimitConfig where
  maxAttempts : Nat
  windowMs : Int
  blockDurationMs : Int
  deriving Repr, DecidableEq

/-- The IP-keyed limiter instance: 10 attempts / 15 min window / 1 h block. -/
def ipRateLimiterConfig : RateLimitConfig :=
  { maxAttempts := 10, windowMs := 15 * 60 * 1000, blockDurationMs := 60 * 60 * 1000 }

/-- The email-keyed limiter instance: 5 attempts / 15 min window / 30 min
block. -/
def emailRateLimiterConfig : RateLimitConfig :=
  { maxAttempts := 5, windowMs := 15 * 60 * 1000, blockDurationMs := 30 * 60 * 1000 }

/-- A row of the `login_attempts` table.  `lastAttempt` and `blockedUntil`
are nullable timestamps. -/
structure LoginAttemptRecord where
  id : Nat
  identifier : String
  attempts : Nat
  lastAttempt : Option Int
  blockedUntil : Option Int
  deriving Repr, DecidableEq

/-- The result object of `RateLimiter.checkRateLimit`.
`remainingAttempts` is an `Int` because JS arithmetic lets
`maxAttempts - 1` go negative for a zero-attempt configuration. -/
structure RateLimitResult where
  allowed : Bool
  remainingAttempts : Int
  resetTime : Option Int := none
  blockedUntil : Option Int := none
  deriving Repr, DecidableEq

/-- The fail-open result produced by the `catch` branch of
`checkRateLimit`: allowed, with the full quota. -/
def failOpenResult (cfg : RateLimitConfig) : RateLimitResult :=
  { allowed := true, remainingAttempts := (cfg.maxAttempts : Int) }

/-- Fault injection for the storage layer: which database call inside
`checkRateLimit` throws, if any.  A thrown call transfers control to the
`catch` branch; a failed update leaves the table unchanged. -/
inductive DbFault where
  | noFault
  | onSelect
  | onUpdate
  deriving Repr, DecidableEq

/-- `select from login_attempts where identifier = ... limit 1`. -/
def findAttemptRecord (store : List LoginAttemptRecord) (identifier : String) :
    Option LoginAttemptRecord :=
  store.find? (fun r => r.identifier == identifier)

/-- `db.update(loginAttempts).set(...).where(eq(loginAttempts.id, rid))`. -/
def updateAttemptRecord (store : List LoginAttemptRecord) (rid : Nat)
    (f : LoginAttemptRecord → LoginAttemptRecord) : List LoginAttemptRecord :=
  store.map (fun r => if r.id == rid then f r else r)

/-- JS `record.blockedUntil && record.blockedUntil > now`. -/
def blockActive : Option Int → Int → Bool
  | some b, now => now < b
  | none, _ => false

/-- JS `record.lastAttempt && record.lastAttempt < windowStart`. -/
def windowExpired : Option Int → Int → Bool
  | some la, ws => la < ws
  | none, _ => false

/-- `RateLimiter.checkRateLimit` (`src/lib/rate-limit.ts`), with fault
injection.  Branches, in source order: no record → allowed with
`maxAttempts - 1`; active block → denied; window expired → reset the
counter (a write) and allow; `attempts >= maxAttempts` → set
`blockedUntil = now + blockDurationMs` (a write) and deny; otherwise →
allowed with the residual quota.  Any thrown storage call lands in the
`catch` and fails open; in the final branch the source dereferences
`record.lastAttempt!`, so a null `lastAttempt` throws a `TypeError`
that the same `catch` turns into fail-open. -/
def checkRateLimit (cfg : RateLimitConfig) (store : List LoginAttemptRecord)
    (identifier : String) (now : Int) (fault : DbFault) :
    RateLimitResult × List LoginAttemptRecord :=
  if fault == .onSelect then (failOpenResult cfg, store)
  else
    let windowStart := now - cfg.windowMs
    match findAttemptRecord store identifier with
    | none =>
      ({ allowed := true, remainingAttempts := (cfg.maxAttempts : Int) - 1 }, store)
    | some record =>
      if blockActive record.blockedUntil now then
        ({ allowed := false, remainingAttempts := 0,
           blockedUntil := record.blockedUntil }, store)
      else if windowExpired record.lastAttempt windowStart then
        if fault == .onUpdate then (failOpenResult cfg, store)
        else
          ({ allowed := true, remainingAttempts := (cfg.maxAttempts : Int) - 1 },
           updateAttemptRecord store record.id (fun r =>
             { r with attempts := 0, lastAttempt := some now, blockedUntil := none }))
      else if cfg.maxAttempts ≤ record.attempts then
        if fault == .onUpdate then (failOpenResult cfg, store)
        else
          let blockedUntil := now + cfg.blockDurationMs
          ({ allowed := false, remainingAttempts := 0,
             blockedUntil := some blockedUntil },
           updateAttemptRecord store record.id (fun r =>
             { r with blockedUntil := some blockedUntil }))
      else
        match record.lastAttempt with
        | some la =>
          ({ allowed := true,
             remainingAttempts := (cfg.maxAttempts : Int) - (record.attempts : Int),
             resetTime := some (la + cfg.windowMs) }, store)
        | none => (failOpenResult cfg, store)

/-- `RateLimiter.recordAttempt` (`src/lib/rate-limit.ts`): success resets
the counter and clears the block; failure increments the counter read
from the fetched record and preserves its block; a missing record is
created with 0 or 1 attempts.  `nid` stands for the `defaultRandom()` id
of a freshly inserted row. -/
def recordAttempt (store : List LoginAttemptRecord) (identifier : String)
    (success : Bool) (now : Int) (nid : Nat) : List LoginAttemptRecord :=
  match findAttemptRecord store identifier with
  | none =>
    store ++ [{ id := nid, identifier := identifier,
                attempts := if success then 0 else 1,
                lastAttempt := some now, blockedUntil := none }]
  | some record =>
    updateAttemptRecord store record.id (fun r =>
      { r with attempts := if success then 0 else record.attempts + 1,
               lastAttempt := some now,
               blockedUntil := if success then none else record.blockedUntil })

/-- A run of consecutive failed `recordAttempt` calls at the given
timestamps, with no intervening success. -/
def recordFails (store : List LoginAttemptRecord) (identifier : String)
    (ts : List Int) (nid : Nat) : List LoginAttemptRecord :=
  ts.foldl (fun st t => recordAttempt st identifier false t nid) store

/-- The attempt count the store currently holds for an identifier
(0 when no row exists). -/
def initAttempts (store : List LoginAttemptRecord) (identifier : String) : Nat :=
  match findAttemptRecord store identifier with
  | none => 0
  | some r => r.attempts

/-- The block expiry the store currently holds for an identifier. -/
def initBlocked (store : List LoginAttemptRecord) (identifier : String) :
    Option Int :=
  match findAttemptRecord store identifier with
  | none => none
  | some r => r.blockedUntil

/-- At most one live (unused) code exists for an (email, purpose) pair —
the invariant the issuing routes maintain on `verification_tokens`. -/
def atMostOneUnused (tokens : List VerificationToken) (email ty : String) : Prop :=
  (tokens.filter (unusedFor email ty)).length ≤ 1


/-! ## Helper lemmas on the store operations -/

/-- A list containing two distinct elements has length at least 2. -/
lemma two_le_length_of_mem_of_mem {α : Type} {l : List α} {x y : α}
    (hx : x ∈ l) (hy : y ∈ l) (hxy : x ≠ y) : 2 ≤ l.length := by
  induction l with
  | nil => cases hx
  | cons a as ih =>
    rcases List.mem_cons.mp hx with rfl | hx'
    · rcases List.mem_cons.mp hy with rfl | hy'
      · exact absurd rfl hxy
      · have h1 : 0 < as.length := List.length_pos.mpr (List.ne_nil_of_mem hy')
        simp only [List.length_cons]
        omega
    · rcases List.mem_cons.mp hy with rfl | hy'
      · have h1 : 0 < as.length := List.length_pos.mpr (List.ne_nil_of_mem hx')
        simp only [List.length_cons]
        omega
      · have h1 := ih hx' hy'
        simp only [List.length_cons]
        omega

/-- A record matching the consume lookup also matches the bulk
invalidation clause. -/
lemma tokenMatches_unusedFor {e c ty : String} {t : VerificationToken}
    (h : tokenMatches e c ty t = true) : unusedFor e ty t = true := by
  simp only [tokenMatches, Bool.and_eq_true] at h
  simp only [unusedFor, Bool.and_eq_true]
  exact ⟨⟨h.1.1.1, h.1.2⟩, h.2⟩

/-- After the bulk invalidation, no record for the pair is still unused. -/
lemma unusedFor_markAllUnusedUsed (l : List VerificationToken) (e ty : String) :
    ∀ t ∈ markAllUnusedUsed l e ty, unusedFor e ty t = false := by
  intro t ht
  obtain ⟨t0, _ht0, rfl⟩ := List.mem_map.mp ht
  by_cases h : unusedFor e ty t0 = true
  · rw [if_pos h]
    simp [unusedFor]
  · rw [Bool.not_eq_true] at h
    rw [if_neg (by rw [h]; exact Bool.false_ne_true)]
    exact h

/-- After the bulk invalidation, the consume lookup for the same pair
finds nothing, whatever code is presented. -/
lemma findValidToken_markAllUnusedUsed (l : List VerificationToken) (e c ty : String) :
    findValidToken (markAllUnusedUsed l e ty) e c ty = none := by
  rw [findValidToken, List.find?_eq_none]
  intro t ht hmatch
  have h1 := tokenMatches_unusedFor hmatch
  rw [unusedFor_markAllUnusedUsed l e ty t ht] at h1
  cases h1

/-- The bulk invalidation leaves no unused record for its own pair. -/
lemma filter_markAllUnusedUsed_self (l : List VerificationToken) (e ty : String) :
    (markAllUnusedUsed l e ty).filter (unusedFor e ty) = [] :=
  List.filter_eq_nil_iff.mpr (fun t ht => by
    rw [unusedFor_markAllUnusedUsed l e ty t ht]
    exact Bool.false_ne_true)

/-- The bulk invalidation for one pair does not touch the unused records
of any other pair. -/
lemma filter_markAllUnusedUsed_other (l : List VerificationToken) {e ty e0 ty0 : String}
    (h : ¬(e = e0 ∧ ty = ty0)) :
    (markAllUnusedUsed l e0 ty0).filter (unusedFor e ty) = l.filter (unusedFor e ty) := by
  induction l with
  | nil => rfl
  | cons a as ih =>
    have hstep : markAllUnusedUsed (a :: as) e0 ty0
        = (if unusedFor e0 ty0 a = true then { a with used := true } else a)
          :: markAllUnusedUsed as e0 ty0 := rfl
    rw [hstep]
    by_cases ha : unusedFor e0 ty0 a = true
    · have h2 : unusedFor e ty a = false := by
        by_contra hc
        rw [Bool.not_eq_false] at hc
        simp only [unusedFor, Bool.and_eq_true, beq_iff_eq] at ha hc
        exact h ⟨by rw [← hc.1.1, ha.1.1], by rw [← hc.1.2, ha.1.2]⟩
      have h1 : unusedFor e ty { a with used := true } = false := by
        simp [unusedFor]
      rw [if_pos ha, List.filter_cons, List.filter_cons, h1, h2]
      simpa using ih
    · rw [Bool.not_eq_true] at ha
      rw [if_neg (by rw [ha]; exact Bool.false_ne_true), List.filter_cons, List.filter_cons]
      cases hea : unusedFor e ty a
      · simpa using ih
      · simpa using ih

/-- Marking the record found by the consume lookup kills the lookup:
provided the pair had at most one unused record, a second lookup for the
same (email, purpose, code) triple finds nothing. -/
lemma findValidToken_markTokenUsed {l : List VerificationToken} {e c ty : String}
    {tok : VerificationToken}
    (hfind : findValidToken l e c ty = some tok)
    (hone : atMostOneUnused l e ty) :
    findValidToken (markTokenUsed l tok.id) e c ty = none := by
  rw [findValidToken, List.find?_eq_none]
  intro t' ht' hmatch
  obtain ⟨t, ht, rfl⟩ := List.mem_map.mp ht'
  have htokmem : tok ∈ l := List.mem_of_find?_eq_some hfind
  have htokp : tokenMatches e c ty tok = true := List.find?_some hfind
  by_cases hid : (t.id == tok.id) = true
  · rw [if_pos hid] at hmatch
    simp [tokenMatches] at hmatch
  · rw [if_neg (by rw [Bool.not_eq_true] at hid; rw [hid]; exact Bool.false_ne_true)] at hmatch
    have h1 : t ∈ l.filter (unusedFor e ty) :=
      List.mem_filter.mpr ⟨ht, tokenMatches_unusedFor hmatch⟩
    have h2 : tok ∈ l.filter (unusedFor e ty) :=
      List.mem_filter.mpr ⟨htokmem, tokenMatches_unusedFor htokp⟩
    have hne : t ≠ tok := fun hEq => hid (by rw [hEq]; exact beq_self_eq_true tok.id)
    have h3 := two_le_length_of_mem_of_mem h1 h2 hne
    rw [atMostOneUnused] at hone
    omega

/-! ## Demonstration fixtures: concrete rows reused by witnesses and
counterexamples -/

/-- An activated account with a password. -/
def activeUser : User :=
  { id := 1, email := "a@x.com", password := some "oldhash",
    emailVerified := some 0, isActive := true }

/-- A not-yet-verified account with a password. -/
def inactiveUser : User :=
  { id := 2, email := "b@x.com", password := some "h",
    emailVerified := none, isActive := false }

/-- An unused, unexpired password-reset code for `activeUser`. -/
def resetTok : VerificationToken :=
  { id := 7, email := "a@x.com", token := "123456", type := passwordResetType,
    expiresAt := 1000000, used := false }

/-- An unused, unexpired email-verification code for `inactiveUser`. -/
def verifyTok : VerificationToken :=
  { id := 9, email := "b@x.com", token := "654321", type := emailVerificationType,
    expiresAt := 1000000, used := false }

/-- Store holding `activeUser` and its live reset code. -/
def resetDemoState : AuthState := { users := [activeUser], tokens := [resetTok] }

/-- Store holding `inactiveUser` and its live verification code. -/
def verifyDemoState : AuthState := { users := [inactiveUser], tokens := [verifyTok] }

/-- A rate-limit row at the email limiter's threshold. -/
def demoAttemptStore : List LoginAttemptRecord :=
  [{ id := 77, identifier := "1.2.3.4", attempts := 5,
     lastAttempt := some 500, blockedUntil := none }]

/-! ## C5: consume succeeds at most once per record -/

/-- C5: a one-time code is consumable at most once.  If the pair held at
most one unused record and `consume` answered ok, then a second
sequential `consume` of the same (email, purpose, code) — at any later
time — answers invalid_or_expired and leaves the store unchanged. -/
theorem consume_at_most_once
    (tokens : List VerificationToken) (email ty otp : String) (now now2 : Int)
    (tid : Nat) (tokens2 : List VerificationToken)
    (hone : atMostOneUnused tokens email ty)
    (h : consume tokens email ty otp now = (.ok tid, tokens2)) :
    consume tokens2 email ty otp now2 = (.invalidOrExpired, tokens2) := by
  rcases hf : findValidToken tokens email otp ty with _ | tok
  · rw [consume, hf] at h
    simp at h
  · have hc : consume tokens email ty otp now
        = if tok.expiresAt < now then (.expired, tokens)
          else (.ok tok.id, markTokenUsed tokens tok.id) := by
      rw [consume, hf]
    rw [hc] at h
    by_cases he : tok.expiresAt < now
    · rw [if_pos he] at h
      simp at h
    · rw [if_neg he] at h
      have h2 : markTokenUsed tokens tok.id = tokens2 := congrArg Prod.snd h
      rw [consume, ← h2, findValidToken_markTokenUsed hf hone]

/-- C5 witness: consuming `verifyTok` once succeeds, and the immediate
repeat answers invalid_or_expired. -/
theorem consume_at_most_once_witness :
    consume [verifyTok] "b@x.com" emailVerificationType "654321" 5000
      = (.ok 9, markTokenUsed [verifyTok] 9) ∧
    consume (markTokenUsed [verifyTok] 9) "b@x.com" emailVerificationType "654321" 6000
      = (.invalidOrExpired, markTokenUsed [verifyTok] 9) :=
  ⟨by decide,
   consume_at_most_once [verifyTok] "b@x.com" emailVerificationType "654321" 5000 6000
     9 (markTokenUsed [verifyTok] 9) (by unfold atMostOneUnused; decide) (by decide)⟩

/-! ## C10: already-verified accounts are rejected before any code lookup -/

/-- C10: a verify-otp request for a user already active or already
bearing a verification timestamp is answered `Email already verified`,
whatever (well-formed 6-digit) code is presented — even a valid, unused,
unexpired one — and the store, token records included, is untouched. -/
theorem already_verified_rejected_before_code_lookup
    (s : AuthState) (email otp : String) (now : Int) (u : User)
    (hotp : (otp.length == 6 && otp.data.all Char.isDigit) = true)
    (hu : findUser s.users email = some u)
    (hv : u.isActive = true ∨ u.emailVerified.isSome = true) :
    verifyOtpRun s email otp now = (.alreadyVerified, s) := by
  have hb : (u.isActive || u.emailVerified.isSome) = true := by
    rcases hv with h | h <;> simp [h]
  have h1 : verifyOtp s email otp now = (.alreadyVerified, []) := by
    simp only [verifyOtp, hotp, hu, hb, if_true]
  simp only [verifyOtpRun, h1]
  rfl

/-- C10 witness: `activeUser` presenting a live, valid, well-formed
reset-style 6-digit code is still told `Email already verified`, with
the store unchanged. -/
theorem already_verified_rejected_before_code_lookup_witness :
    ((("123456" : String).length == 6 && ("123456" : String).data.all Char.isDigit) = true)
    ∧ verifyOtpRun resetDemoState "a@x.com" "123456" 5000 = (.alreadyVerified, resetDemoState) :=
  ⟨by decide,
   already_verified_rejected_before_code_lookup resetDemoState "a@x.com" "123456" 5000
     activeUser (by decide) (by decide) (Or.inl (by decide))⟩

/-! ## C2: ordering of mark-used against the dependent state change -/

/-- C2 counterexample: on the `reset-password` route the password update
is issued BEFORE the consumed code is marked used.  In the state reached
after the first write of the success trace (the password update), the
user's password has already been replaced, yet the code record still has
`used = false` and a repeat consume of the same code still answers ok —
so in a reachable state after the dependent change the record is not yet
marked used, and a midway failure leaves the code consumable again. -/
theorem reset_password_updates_password_before_marking_used :
    (resetPassword resetDemoState "a@x.com" "123456" "newpass1" "newhash" 5000).1
      = .resetOk ∧
    (let mid := applyWrites resetDemoState
        ((resetPassword resetDemoState "a@x.com" "123456" "newpass1" "newhash" 5000).2.take 1)
     findUser mid.users "a@x.com" = some { activeUser with password := some "newhash" } ∧
     (consume mid.tokens "a@x.com" passwordResetType "123456" 5000).1 = .ok 7) := by
  decide

/-- C2 as amended: the email-verification consume (`verify-otp`) does
mark the code used before the dependent account-activation update — its
success trace is exactly mark-used followed by activate, so in every
state reached once any prefix of at least one write has been applied
(in particular once the dependent change has), a repeat consume answers
invalid_or_expired, provided the pair held at most one unused record.
The password-reset route instead issues the password update first: its
success trace is password update, then mark-used, then bulk
invalidation, so there the mark-used follows the dependent change. -/
theorem verify_marks_used_first_but_reset_marks_used_after_password :
    (∀ s email otp now res ws, verifyOtp s email otp now = (res, ws) → res = .verified →
      atMostOneUnused s.tokens email emailVerificationType →
      ∃ tok, findValidToken s.tokens email otp emailVerificationType = some tok ∧
        ws = [.markUsed tok.id, .activate email (now + istOffsetMs)] ∧
        ∀ k, 1 ≤ k →
          (consume (applyWrites s (ws.take k)).tokens email emailVerificationType otp now).1
            = .invalidOrExpired) ∧
    (∀ s email otp pw hsh now res ws, resetPassword s email otp pw hsh now = (res, ws) →
      res = .resetOk →
      ∃ tok, findValidToken s.tokens email otp passwordResetType = some tok ∧
        ws = [.setPassword email hsh, .markUsed tok.id,
              .markAllUnused email passwordResetType]) := by
  constructor
  · intro s email otp now res ws h hres hone
    subst hres
    rw [verifyOtp] at h
    split at h
    · rcases hu : findUser s.users email with _ | u
      · rw [hu] at h; simp at h
      · rw [hu] at h
        simp only [] at h
        by_cases hb : (u.isActive || u.emailVerified.isSome) = true
        · rw [if_pos hb] at h; simp at h
        · rw [if_neg hb] at h
          rcases hf : findValidToken s.tokens email otp emailVerificationType with _ | tok
          · rw [hf] at h; simp at h
          · rw [hf] at h
            simp only [] at h
            by_cases he : tok.expiresAt < now
            · rw [if_pos he] at h; simp at h
            · rw [if_neg he] at h
              have hws : ws = [.markUsed tok.id, .activate email (now + istOffsetMs)] :=
                (congrArg Prod.snd h).symm
              refine ⟨tok, rfl, hws, ?_⟩
              intro k hk
              have htk : (applyWrites s (ws.take k)).tokens
                  = markTokenUsed s.tokens tok.id := by
                rw [hws]
                match k, hk with
                | 1, _ => rfl
                | (n + 2), _ =>
                  rw [List.take_of_length_le (by simp)]
                  rfl
              have hfind := findValidToken_markTokenUsed hf hone
              rw [consume, htk, hfind]
    · simp at h
  · intro s email otp pw hsh now res ws h hres
    subst hres
    rw [resetPassword] at h
    split at h
    · rcases hu : findUser s.users email with _ | u
      · rw [hu] at h; simp at h
      · rw [hu] at h
        simp only [] at h
        rcases hf : findValidToken s.tokens email otp passwordResetType with _ | tok
        · rw [hf] at h; simp at h
        · rw [hf] at h
          simp only [] at h
          by_cases he : tok.expiresAt < now
          · rw [if_pos he] at h; simp at h
          · rw [if_neg he] at h
            exact ⟨tok, rfl, (congrArg Prod.snd h).symm⟩
    · simp at h

/-- C2 amended witness: running `verify-otp` on the demonstration store
and applying only the first write of its success trace already makes the
repeat consume fail. -/
theorem verify_marks_used_first_witness :
    (consume (applyWrites verifyDemoState
        ((verifyOtp verifyDemoState "b@x.com" "654321" 5000).2.take 1)).tokens
      "b@x.com" emailVerificationType "654321" 5000).1 = .invalidOrExpired := by
  obtain ⟨tok, _hfind, hws, hcons⟩ :=
    verify_marks_used_first_but_reset_marks_used_after_password.1
      verifyDemoState "b@x.com" "654321" 5000
      (verifyOtp verifyDemoState "b@x.com" "654321" 5000).1
      (verifyOtp verifyDemoState "b@x.com" "654321" 5000).2
      rfl (by decide) (by unfold atMostOneUnused; decide)
  exact hcons 1 (by decide)

/-! ## C1: persistence of the fresh code versus delivery failure -/

/-- The consume lookup distributes over list append. -/
lemma findValidToken_append (l1 l2 : List VerificationToken) (e c ty : String) :
    findValidToken (l1 ++ l2) e c ty
      = (findValidToken l1 e c ty).or (findValidToken l2 e c ty) := by
  simp only [findValidToken]
  exact List.find?_append

/-- C1 counterexample: on the cited password-reset issue route
(`src/app/api/auth/forgot-password/route.ts`) the fresh code record is
inserted BEFORE delivery is attempted.  With delivery failing, the route
answers with the failure response, yet an unused record bearing the
freshly generated code for (email, password_reset) is committed in the
store. -/
theorem forgot_password_persists_code_despite_delivery_failure :
    (forgotPassword resetDemoState "a@x.com" "777777" 0 42 false).1 = .emailFailed ∧
    findValidToken (forgotPassword resetDemoState "a@x.com" "777777" 0 42 false).2.tokens
      "a@x.com" "777777" passwordResetType
      = some (newResetToken "a@x.com" "777777" 0 42) := by
  decide

/-- C1 as amended: the two issue routes disagree.  `resend-otp`
(email verification) sends first and only persists on success, so after
a failed delivery no record bearing the fresh code is committed for the
pair (though prior unused codes are still invalidated); the
password-reset issue route (`auth/forgot-password`) inserts the record
before attempting delivery, so after a failed delivery the operation
reports failure but the freshly generated, still-unused code record
remains committed. -/
theorem resend_persists_only_on_delivery_unlike_forgot :
    (∀ s email otp now tid u, findUser s.users email = some u → u.isActive = false →
      resendOtp s email otp now tid false
        = (.emailFailed,
           { s with tokens := markAllUnusedUsed s.tokens email emailVerificationType }) ∧
      findValidToken (resendOtp s email otp now tid false).2.tokens
        email otp emailVerificationType = none) ∧
    (∀ s email otp now tid u, findUser s.users email = some u → u.isActive = true →
      forgotPassword s email otp now tid false
        = (.emailFailed,
           { s with tokens := markAllUnusedUsed s.tokens email passwordResetType
               ++ [newResetToken email otp now tid] }) ∧
      findValidToken (forgotPassword s email otp now tid false).2.tokens
        email otp passwordResetType = some (newResetToken email otp now tid)) := by
  constructor
  · intro s email otp now tid u hu ha
    have h1 : resendOtp s email otp now tid false
        = (.emailFailed,
           { s with tokens := markAllUnusedUsed s.tokens email emailVerificationType }) := by
      rw [resendOtp, hu]
      simp only []
      rw [if_neg (by rw [ha]; exact Bool.false_ne_true)]
      rfl
    refine ⟨h1, ?_⟩
    rw [h1]
    exact findValidToken_markAllUnusedUsed s.tokens email otp emailVerificationType
  · intro s email otp now tid u hu ha
    have h1 : forgotPassword s email otp now tid false
        = (.emailFailed,
           { s with tokens := markAllUnusedUsed s.tokens email passwordResetType
               ++ [newResetToken email otp now tid] }) := by
      rw [forgotPassword, hu]
      simp only []
      rw [if_pos ha]
      rfl
    refine ⟨h1, ?_⟩
    rw [h1]
    simp only [findValidToken_append,
      findValidToken_markAllUnusedUsed s.tokens email otp passwordResetType]
    simp [findValidToken, List.find?, tokenMatches, newResetToken]

/-- C1 amended witness: concrete runs of both issue routes with failing
delivery. -/
theorem resend_persists_only_on_delivery_unlike_forgot_witness :
    (resendOtp verifyDemoState "b@x.com" "999999" 0 43 false
        = (.emailFailed,
           { verifyDemoState with
               tokens := markAllUnusedUsed verifyDemoState.tokens "b@x.com"
                 emailVerificationType }) ∧
      findValidToken (resendOtp verifyDemoState "b@x.com" "999999" 0 43 false).2.tokens
        "b@x.com" "999999" emailVerificationType = none) ∧
    (forgotPassword resetDemoState "a@x.com" "999999" 0 44 false
        = (.emailFailed,
           { resetDemoState with
               tokens := markAllUnusedUsed resetDemoState.tokens "a@x.com" passwordResetType
                 ++ [newResetToken "a@x.com" "999999" 0 44] }) ∧
      findValidToken (forgotPassword resetDemoState "a@x.com" "999999" 0 44 false).2.tokens
        "a@x.com" "999999" passwordResetType = some (newResetToken "a@x.com" "999999" 0 44)) :=
  ⟨resend_persists_only_on_delivery_unlike_forgot.1 verifyDemoState "b@x.com" "999999" 0 43
      inactiveUser (by decide) (by decide),
   resend_persists_only_on_delivery_unlike_forgot.2 resetDemoState "a@x.com" "999999" 0 44
      activeUser (by decide) (by decide)⟩

/-! ## C6: a new issue invalidates all prior codes for the pair -/

/-- State equation for a successful pass through the password-reset
issue route (any delivery outcome: the insert precedes delivery). -/
lemma forgotPassword_state {s : AuthState} {u : User} {email : String} (c : String)
    (now : Int) (tid : Nat) (d : Bool)
    (hu : findUser s.users email = some u) (ha : u.isActive = true) :
    (forgotPassword s email c now tid d).2 =
      { s with tokens := markAllUnusedUsed s.tokens email passwordResetType
          ++ [newResetToken email c now tid] } := by
  rw [forgotPassword, hu]
  simp only []
  rw [if_pos ha]
  cases d <;> rfl

/-- State equation for a pass through the resend route reaching the
issue logic: the bulk invalidation always commits, the insert only on
successful delivery. -/
lemma resendOtp_state {s : AuthState} {u : User} {email : String} (c : String)
    (now : Int) (tid : Nat) (d : Bool)
    (hu : findUser s.users email = some u) (ha : u.isActive = false) :
    (resendOtp s email c now tid d).2 =
      { s with tokens := markAllUnusedUsed s.tokens email emailVerificationType
          ++ (if d then [newVerificationToken email c now tid] else []) } := by
  rw [resendOtp, hu]
  simp only []
  rw [if_neg (by rw [ha]; exact Bool.false_ne_true)]
  cases d
  · simp
  · rfl

/-- A singleton whose code differs from the presented one never matches
the consume lookup. -/
lemma findValidToken_singleton_ne {t : VerificationToken} {e c ty : String}
    (hne : t.token ≠ c) : findValidToken [t] e c ty = none := by
  rw [findValidToken, List.find?_cons_of_neg, List.find?_nil]
  simp [tokenMatches, hne]

/-- Bulk invalidation preserves the at-most-one-live-code invariant for
every pair. -/
lemma atMostOneUnused_markAll {l : List VerificationToken} (e0 ty0 : String) {e ty : String}
    (h : atMostOneUnused l e ty) : atMostOneUnused (markAllUnusedUsed l e0 ty0) e ty := by
  by_cases hp : e = e0 ∧ ty = ty0
  · obtain ⟨rfl, rfl⟩ := hp
    rw [atMostOneUnused, filter_markAllUnusedUsed_self]
    simp
  · rw [atMostOneUnused, filter_markAllUnusedUsed_other l hp]
    exact h

/-- Bulk invalidation followed by one fresh insert for the pair
preserves the at-most-one-live-code invariant for every pair. -/
lemma atMostOneUnused_markAll_insert {l : List VerificationToken} {e0 ty0 e ty : String}
    {tok : VerificationToken} (hte : tok.email = e0) (hty : tok.type = ty0)
    (h : atMostOneUnused l e ty) :
    atMostOneUnused (markAllUnusedUsed l e0 ty0 ++ [tok]) e ty := by
  rw [atMostOneUnused, List.filter_append]
  by_cases hp : e = e0 ∧ ty = ty0
  · obtain ⟨rfl, rfl⟩ := hp
    rw [filter_markAllUnusedUsed_self, List.nil_append]
    calc (List.filter (unusedFor e ty) [tok]).length
        ≤ [tok].length := List.length_filter_le _ _
      _ = 1 := rfl
  · have hfalse : unusedFor e ty tok = false := by
      simp only [unusedFor, hte, hty]
      rcases not_and_or.mp hp with hne | hne
      · have hb : (e0 == e) = false := beq_eq_false_iff_ne.mpr (fun hh => hne hh.symm)
        simp [hb]
      · have hb : (ty0 == ty) = false := beq_eq_false_iff_ne.mpr (fun hh => hne hh.symm)
        simp [hb]
    have hnil : List.filter (unusedFor e ty) [tok] = [] := by
      simp [List.filter_cons, hfalse]
    rw [filter_markAllUnusedUsed_other l hp, hnil, List.append_nil]
    exact h

/-- C6: issuing a new code first invalidates every prior unused code for
the (email, purpose) pair.  Consequences proved: after two sequential
issues (any delivery outcomes) the first code is no longer consumable
when the second code differs from it, and each issue route preserves the
at-most-one-live-code-per-pair invariant. -/
theorem second_issue_invalidates_first_code :
    (∀ s email c1 c2 now1 now2 now3 tid1 tid2 d1 d2 u,
      findUser s.users email = some u → u.isActive = true → c2 ≠ c1 →
      (consume (forgotPassword (forgotPassword s email c1 now1 tid1 d1).2
          email c2 now2 tid2 d2).2.tokens email passwordResetType c1 now3).1
        = .invalidOrExpired) ∧
    (∀ s email c1 c2 now1 now2 now3 tid1 tid2 d1 d2 u,
      findUser s.users email = some u → u.isActive = false → c2 ≠ c1 →
      (consume (resendOtp (resendOtp s email c1 now1 tid1 d1).2
          email c2 now2 tid2 d2).2.tokens email emailVerificationType c1 now3).1
        = .invalidOrExpired) ∧
    (∀ s email otp now tid d e ty, atMostOneUnused s.tokens e ty →
      atMostOneUnused (forgotPassword s email otp now tid d).2.tokens e ty) ∧
    (∀ s email otp now tid d e ty, atMostOneUnused s.tokens e ty →
      atMostOneUnused (resendOtp s email otp now tid d).2.tokens e ty) := by
  refine ⟨?_, ?_, ?_, ?_⟩
  · intro s email c1 c2 now1 now2 now3 tid1 tid2 d1 d2 u hu ha hc
    have h1 := forgotPassword_state c1 now1 tid1 d1 hu ha
    have hu1 : findUser (forgotPassword s email c1 now1 tid1 d1).2.users email = some u := by
      rw [h1]
      exact hu
    have h2 := forgotPassword_state c2 now2 tid2 d2 hu1 ha
    rw [h2, h1]
    simp only []
    rw [consume, findValidToken_append, findValidToken_markAllUnusedUsed,
        findValidToken_singleton_ne
          (show (newResetToken email c2 now2 tid2).token ≠ c1 from hc)]
    rfl
  · intro s email c1 c2 now1 now2 now3 tid1 tid2 d1 d2 u hu ha hc
    have h1 := resendOtp_state c1 now1 tid1 d1 hu ha
    have hu1 : findUser (resendOtp s email c1 now1 tid1 d1).2.users email = some u := by
      rw [h1]
      exact hu
    have h2 := resendOtp_state c2 now2 tid2 d2 hu1 ha
    rw [h2, h1]
    simp only []
    cases d2
    · rw [if_neg Bool.false_ne_true, List.append_nil, consume,
          findValidToken_markAllUnusedUsed]
    · rw [if_pos rfl, consume, findValidToken_append, findValidToken_markAllUnusedUsed,
          findValidToken_singleton_ne
            (show (newVerificationToken email c2 now2 tid2).token ≠ c1 from hc)]
      rfl
  · intro s email otp now tid d e ty h
    rcases hu : findUser s.users email with _ | u
    · rw [forgotPassword, hu]
      exact h
    · by_cases ha : u.isActive = true
      · have h1 := forgotPassword_state otp now tid d hu ha
        rw [h1]
        exact atMostOneUnused_markAll_insert rfl rfl h
      · rw [forgotPassword, hu]
        simp only []
        rw [if_neg (fun hh => ha hh)]
        exact h
  · intro s email otp now tid d e ty h
    rcases hu : findUser s.users email with _ | u
    · rw [resendOtp, hu]
      exact h
    · by_cases ha : u.isActive = true
      · rw [resendOtp, hu]
        simp only []
        rw [if_pos ha]
        exact h
      · rw [Bool.not_eq_true] at ha
        have h1 := resendOtp_state otp now tid d hu ha
        rw [h1]
        cases d
        · simp only [if_neg Bool.false_ne_true, List.append_nil]
          exact atMostOneUnused_markAll email emailVerificationType h
        · simp only [if_pos rfl]
          exact atMostOneUnused_markAll_insert rfl rfl h

/-- C6 witness: two sequential password-reset issues for `activeUser`
with distinct codes — consuming the first code afterwards fails — and a
concrete instance of the preserved invariant. -/
theorem second_issue_invalidates_first_code_witness :
    (consume (forgotPassword (forgotPassword resetDemoState "a@x.com" "111111" 0 50 true).2
        "a@x.com" "222222" 1 51 true).2.tokens "a@x.com" passwordResetType "111111" 2).1
      = .invalidOrExpired ∧
    atMostOneUnused (forgotPassword resetDemoState "a@x.com" "111111" 0 50 true).2.tokens
      "a@x.com" passwordResetType :=
  ⟨second_issue_invalidates_first_code.1 resetDemoState "a@x.com" "111111" "222222"
      0 1 2 50 51 true true activeUser (by decide) (by decide) (by decide),
   second_issue_invalidates_first_code.2.2.1 resetDemoState "a@x.com" "111111" 0 50 true
      "a@x.com" passwordResetType (by unfold atMostOneUnused; decide)⟩

/-! ## C3: user-facing classification of sign-in rejections -/

/-- C3 counterexample: two rejected sign-in runs whose verifier
classifications differ (user not found versus account not activated)
produce DIFFERENT user-facing messages, so the classification is
observable in the response, not only in the audit record. -/
theorem authorize_rejections_not_uniform :
    authorize [] [] (fun _ _ => true) "nosuch@x.com" "pw"
      = .failure invalidCredentialsMessage ∧
    authorize [inactiveUser] [] (fun _ _ => true) "b@x.com" "pw"
      = .failure notActivatedMessage ∧
    invalidCredentialsMessage ≠ notActivatedMessage := by
  decide

/-- C3 as amended: only the user-not-found and wrong-password
classifications share the generic `Invalid credentials` message; the
no-password-with-Google-link, no-password-without-link, and
not-activated classifications each produce their own distinct message. -/
theorem generic_message_only_for_notfound_and_wrong_password :
    (∀ users accounts cmp emailRaw pw,
      (emailRaw == "") = false → (pw == "") = false →
      findUser users (normalizeEmail emailRaw) = none →
      authorize users accounts cmp emailRaw pw = .failure invalidCredentialsMessage) ∧
    (∀ users accounts cmp emailRaw pw u hash,
      (emailRaw == "") = false → (pw == "") = false →
      findUser users (normalizeEmail emailRaw) = some u →
      u.password = some hash → u.isActive = true → cmp pw hash = false →
      authorize users accounts cmp emailRaw pw = .failure invalidCredentialsMessage) ∧
    googleLinkedMessage ≠ invalidCredentialsMessage ∧
    incompleteAccountMessage ≠ invalidCredentialsMessage ∧
    notActivatedMessage ≠ invalidCredentialsMessage ∧
    googleLinkedMessage ≠ incompleteAccountMessage ∧
    googleLinkedMessage ≠ notActivatedMessage ∧
    incompleteAccountMessage ≠ notActivatedMessage := by
  refine ⟨?_, ?_, by decide, by decide, by decide, by decide, by decide, by decide⟩
  · intro users accounts cmp emailRaw pw he hp hfind
    rw [authorize, if_neg (by rw [he, hp]; exact Bool.false_ne_true), hfind]
  · intro users accounts cmp emailRaw pw u hash he hp hfind hpw ha hcmp
    rw [authorize, if_neg (by rw [he, hp]; exact Bool.false_ne_true), hfind]
    simp only []
    rw [hpw]
    simp only []
    rw [if_pos ha, if_neg (by rw [hcmp]; exact Bool.false_ne_true)]

/-- C3 amended witness: concrete not-found and wrong-password runs both
answered with the generic message. -/
theorem generic_message_only_for_notfound_and_wrong_password_witness :
    authorize [activeUser] [] (fun _ _ => true) "zz@x.com" "pw"
      = .failure invalidCredentialsMessage ∧
    authorize [activeUser] [] (fun _ _ => false) "a@x.com" "pw"
      = .failure invalidCredentialsMessage :=
  ⟨generic_message_only_for_notfound_and_wrong_password.1 [activeUser] []
      (fun _ _ => true) "zz@x.com" "pw" (by decide) (by decide) (by decide),
   generic_message_only_for_notfound_and_wrong_password.2.1 [activeUser] []
      (fun _ _ => false) "a@x.com" "pw" activeUser "oldhash"
      (by decide) (by decide) (by decide) (by decide) (by decide) (by decide)⟩

/-! ## C8: no password and no federated link never authenticates -/

/-- C8: a credential record with no password hash and no linked Google
account never yields a successful outcome from `authorize`, for every
presented password including the empty string: the attempt is rejected
either by the input-presence validation or as an incomplete account. -/
theorem no_password_no_link_never_authenticates
    (users : List User) (accounts : List Account) (cmp : String → String → Bool)
    (emailRaw password : String) (u : User)
    (hu : findUser users (normalizeEmail emailRaw) = some u)
    (hp : u.password = none)
    (hg : hasGoogleAccount accounts u.id = false) :
    authorize users accounts cmp emailRaw password = .failure missingCredentialsMessage ∨
    authorize users accounts cmp emailRaw password = .failure incompleteAccountMessage := by
  by_cases he : (emailRaw == "" || password == "") = true
  · left
    rw [authorize, if_pos he]
  · right
    rw [authorize, if_neg he, hu]
    simp only []
    rw [hp]
    simp only []
    rw [if_neg (by rw [hg]; exact Bool.false_ne_true)]

/-- C8 witness: a password-less, link-less record rejects both the empty
and a non-empty password. -/
theorem no_password_no_link_never_authenticates_witness :
    (authorize [{ activeUser with password := none }] [] (fun _ _ => true) "a@x.com" ""
        = .failure missingCredentialsMessage ∨
     authorize [{ activeUser with password := none }] [] (fun _ _ => true) "a@x.com" ""
        = .failure incompleteAccountMessage) ∧
    (authorize [{ activeUser with password := none }] [] (fun _ _ => true) "a@x.com" "guess"
        = .failure missingCredentialsMessage ∨
     authorize [{ activeUser with password := none }] [] (fun _ _ => true) "a@x.com" "guess"
        = .failure incompleteAccountMessage) :=
  ⟨no_password_no_link_never_authenticates [{ activeUser with password := none }] []
      (fun _ _ => true) "a@x.com" "" { activeUser with password := none }
      (by decide) (by decide) (by decide),
   no_password_no_link_never_authenticates [{ activeUser with password := none }] []
      (fun _ _ => true) "a@x.com" "guess" { activeUser with password := none }
      (by decide) (by decide) (by decide)⟩

/-! ## C4: user-facing classification of OTP verification failures -/

/-- C4 counterexample: failed OTP verifications are NOT collapsed to one
generic message — a wrong code and an expired code get different
messages, and an unknown email gets `User not found`, which reveals
whether the email belongs to an account. -/
theorem otp_failure_messages_distinguishable :
    (verifyOtp verifyDemoState "b@x.com" "222222" 5000).1 = .invalidOrExpired ∧
    (verifyOtp verifyDemoState "b@x.com" "654321" 2000000).1 = .codeExpired ∧
    verifyOtpMessage .invalidOrExpired ≠ verifyOtpMessage .codeExpired ∧
    (verifyOtp verifyDemoState "zz@x.com" "222222" 5000).1 = .userNotFound ∧
    verifyOtpMessage .userNotFound ≠ verifyOtpMessage .invalidOrExpired := by
  decide

/-- C4 as amended: the code-lookup failures (no such code, wrong code,
already-used code) do collapse to the one generic
`Invalid or expired verification code` response; but an expired code is
answered with the distinct `Verification code has expired` message, and
an email without an account is answered `User not found`, so expiry and
account existence remain distinguishable from the response. -/
theorem otp_lookup_failures_collapse_but_expiry_and_user_leak :
    (∀ s email otp now u, (otp.length == 6 && otp.data.all Char.isDigit) = true →
      findUser s.users email = some u →
      (u.isActive || u.emailVerified.isSome) = false →
      findValidToken s.tokens email otp emailVerificationType = none →
      verifyOtp s email otp now = (.invalidOrExpired, [])) ∧
    (∀ s email otp now u tok, (otp.length == 6 && otp.data.all Char.isDigit) = true →
      findUser s.users email = some u →
      (u.isActive || u.emailVerified.isSome) = false →
      findValidToken s.tokens email otp emailVerificationType = some tok →
      tok.expiresAt < now →
      verifyOtp s email otp now = (.codeExpired, [])) ∧
    (∀ s email otp now, (otp.length == 6 && otp.data.all Char.isDigit) = true →
      findUser s.users email = none →
      verifyOtp s email otp now = (.userNotFound, [])) := by
  refine ⟨?_, ?_, ?_⟩
  · intro s email otp now u hotp hu hb hf
    rw [verifyOtp, if_pos hotp, hu]
    simp only []
    rw [if_neg (by rw [hb]; exact Bool.false_ne_true), hf]
  · intro s email otp now u tok hotp hu hb hf he
    rw [verifyOtp, if_pos hotp, hu]
    simp only []
    rw [if_neg (by rw [hb]; exact Bool.false_ne_true), hf]
    simp only []
    rw [if_pos he]
  · intro s email otp now hotp hu
    rw [verifyOtp, if_pos hotp, hu]

/-- C4 amended witness: concrete wrong-code, expired-code, and
unknown-email runs. -/
theorem otp_lookup_failures_collapse_witness :
    verifyOtp verifyDemoState "b@x.com" "222222" 5000 = (.invalidOrExpired, []) ∧
    verifyOtp verifyDemoState "b@x.com" "654321" 2000000 = (.codeExpired, []) ∧
    verifyOtp verifyDemoState "zz@x.com" "222222" 5000 = (.userNotFound, []) :=
  ⟨otp_lookup_failures_collapse_but_expiry_and_user_leak.1 verifyDemoState "b@x.com"
      "222222" 5000 inactiveUser (by decide) (by decide) (by decide) (by decide),
   otp_lookup_failures_collapse_but_expiry_and_user_leak.2.1 verifyDemoState "b@x.com"
      "654321" 2000000 inactiveUser verifyTok (by decide) (by decide) (by decide)
      (by decide) (by decide),
   otp_lookup_failures_collapse_but_expiry_and_user_leak.2.2 verifyDemoState "zz@x.com"
      "222222" 5000 (by decide) (by decide)⟩

/-! ## C9: admission checks fail open on storage faults -/

/-- C9: whichever storage call inside `checkRateLimit` throws — the
initial select, or the update issued by the window-reset and
block-setting branches — the fault is not propagated: the check answers
allowed with the full quota (`remainingAttempts = maxAttempts`) and the
store is left unchanged. -/
theorem check_admission_fails_open
    (cfg : RateLimitConfig) (store : List LoginAttemptRecord)
    (identifier : String) (now : Int) :
    (failOpenResult cfg).allowed = true ∧
    (failOpenResult cfg).remainingAttempts = (cfg.maxAttempts : Int) ∧
    checkRateLimit cfg store identifier now .onSelect = (failOpenResult cfg, store) ∧
    (∀ record, findAttemptRecord store identifier = some record →
      blockActive record.blockedUntil now = false →
      (windowExpired record.lastAttempt (now - cfg.windowMs) = true
        ∨ cfg.maxAttempts ≤ record.attempts) →
      checkRateLimit cfg store identifier now .onUpdate = (failOpenResult cfg, store)) := by
  refine ⟨rfl, rfl, rfl, ?_⟩
  intro record hf hb hcase
  rw [checkRateLimit, if_neg (by decide)]
  simp only []
  rw [hf]
  simp only []
  rw [if_neg (by rw [hb]; exact Bool.false_ne_true)]
  by_cases hw : windowExpired record.lastAttempt (now - cfg.windowMs) = true
  · rw [if_pos hw, if_pos (by decide)]
  · rcases hcase with hwin | hatt
    · exact absurd hwin hw
    · rw [if_neg (fun hh => hw hh), if_pos hatt, if_pos (by decide)]

/-- C9 witness: both fault sites, on a concrete store at the threshold. -/
theorem check_admission_fails_open_witness :
    checkRateLimit emailRateLimiterConfig demoAttemptStore "1.2.3.4" 600 .onSelect
      = (failOpenResult emailRateLimiterConfig, demoAttemptStore) ∧
    checkRateLimit emailRateLimiterConfig demoAttemptStore "1.2.3.4" 600 .onUpdate
      = (failOpenResult emailRateLimiterConfig, demoAttemptStore) :=
  ⟨(check_admission_fails_open emailRateLimiterConfig demoAttemptStore "1.2.3.4" 600).2.2.1,
   (check_admission_fails_open emailRateLimiterConfig demoAttemptStore "1.2.3.4" 600).2.2.2
     { id := 77, identifier := "1.2.3.4", attempts := 5,
       lastAttempt := some 500, blockedUntil := none }
     (by decide) (by decide) (Or.inr (by decide))⟩

/-! ## C7: maxAttempts consecutive failures lead to a block -/

/-- `find?` skips a prefix in which nothing matches. -/
lemma find?_eq_none_append {α : Type} {l1 l2 : List α} {p : α → Bool}
    (h : l1.find? p = none) : (l1 ++ l2).find? p = l2.find? p := by
  rw [List.find?_append, h]
  rfl

/-- `find?` commutes with a map that does not disturb the predicate. -/
lemma find?_map_of_pred_invariant {α : Type} (l : List α) (f : α → α) (p : α → Bool)
    (hf : ∀ a, p (f a) = p a) : (l.map f).find? p = (l.find? p).map f := by
  induction l with
  | nil => rfl
  | cons a as ih =>
    rw [List.map_cons]
    cases hpa : p a
    · rw [List.find?_cons_of_neg _ (by rw [hf a, hpa]; exact Bool.false_ne_true),
          List.find?_cons_of_neg _ (by rw [hpa]; exact Bool.false_ne_true)]
      exact ih
    · rw [List.find?_cons_of_pos _ (by rw [hf a, hpa]),
          List.find?_cons_of_pos _ hpa]
      rfl

/-- The row updates issued by `recordAttempt` and by the block-setting
branch keep both row id and row identifier, so the identifier lookup
commutes with them.  The update function is spelled as a field update so
that rewriting can match both call sites. -/
lemma findAttemptRecord_update (store : List LoginAttemptRecord) (identifier : String)
    (rid : Nat) (att : LoginAttemptRecord → Nat) (la bu : LoginAttemptRecord → Option Int) :
    findAttemptRecord (updateAttemptRecord store rid (fun r =>
        { r with attempts := att r, lastAttempt := la r, blockedUntil := bu r }))
      identifier
      = (findAttemptRecord store identifier).map
          (fun r => if r.id == rid then
            { r with attempts := att r, lastAttempt := la r, blockedUntil := bu r }
          else r) := by
  rw [updateAttemptRecord, findAttemptRecord, findAttemptRecord]
  exact find?_map_of_pred_invariant store _ (fun r => r.identifier == identifier)
    (fun a => by by_cases h : (a.id == rid) = true <;> simp [h])

/-- One failed `recordAttempt` leaves the identifier's row with one more
attempt, the failure timestamp, and the block expiry it had before. -/
lemma recordAttempt_fail_spec (store : List LoginAttemptRecord)
    (identifier : String) (t : Int) (nid : Nat) :
    ∃ rid, findAttemptRecord (recordAttempt store identifier false t nid) identifier =
      some { id := rid, identifier := identifier,
             attempts := initAttempts store identifier + 1,
             lastAttempt := some t,
             blockedUntil := initBlocked store identifier } := by
  rcases hf : findAttemptRecord store identifier with _ | record
  · have hA : initAttempts store identifier = 0 := by rw [initAttempts, hf]
    have hB : initBlocked store identifier = none := by rw [initBlocked, hf]
    refine ⟨nid, ?_⟩
    rw [recordAttempt, hf, hA, hB]
    simp only []
    rw [findAttemptRecord] at hf
    rw [findAttemptRecord, find?_eq_none_append hf]
    simp [List.find?]
  · have hA : initAttempts store identifier = record.attempts := by rw [initAttempts, hf]
    have hB : initBlocked store identifier = record.blockedUntil := by rw [initBlocked, hf]
    have hid : record.identifier = identifier := by
      rw [findAttemptRecord] at hf
      have h1 := List.find?_some hf
      exact beq_iff_eq.mp h1
    refine ⟨record.id, ?_⟩
    rw [recordAttempt, hf]
    simp only []
    rw [findAttemptRecord_update, hf, hA, hB, ← hid]
    simp only [Option.map_some']
    rw [if_pos (beq_self_eq_true record.id)]
    rfl

/-- After a nonempty run of consecutive failed `recordAttempt` calls the
identifier's row holds the prior attempt count plus the number of
failures, the last failure's timestamp, and the prior block expiry. -/
lemma recordFails_spec (identifier : String) (nid : Nat) :
    ∀ (ts : List Int) (store : List LoginAttemptRecord) (hne : ts ≠ []),
      ∃ rid, findAttemptRecord (recordFails store identifier ts nid) identifier =
        some { id := rid, identifier := identifier,
               attempts := initAttempts store identifier + ts.length,
               lastAttempt := some (ts.getLast hne),
               blockedUntil := initBlocked store identifier } := by
  intro ts
  induction ts with
  | nil => intro _ h; exact absurd rfl h
  | cons t ts ih =>
    intro store _
    cases ts with
    | nil =>
      obtain ⟨rid, h1⟩ := recordAttempt_fail_spec store identifier t nid
      exact ⟨rid, h1⟩
    | cons t2 ts2 =>
      have hne2 : t2 :: ts2 ≠ [] := List.cons_ne_nil t2 ts2
      obtain ⟨rid0, h0⟩ := recordAttempt_fail_spec store identifier t nid
      obtain ⟨rid, h⟩ := ih (recordAttempt store identifier false t nid) hne2
      refine ⟨rid, ?_⟩
      have hstep : recordFails store identifier (t :: t2 :: ts2) nid
          = recordFails (recordAttempt store identifier false t nid) identifier
              (t2 :: ts2) nid := by
        rw [recordFails, recordFails, List.foldl_cons]
      rw [hstep, h]
      have hA : initAttempts (recordAttempt store identifier false t nid) identifier
          = initAttempts store identifier + 1 := by
        rw [initAttempts, h0]
      have hB : initBlocked (recordAttempt store identifier false t nid) identifier
          = initBlocked store identifier := by
        rw [initBlocked, h0]
      have hL : (t2 :: ts2).getLast hne2
          = (t :: t2 :: ts2).getLast (List.cons_ne_nil t (t2 :: ts2)) := by
        rw [List.getLast_cons hne2]
      rw [hA, hB, hL]
      have hlen : initAttempts store identifier + 1 + (t2 :: ts2).length
          = initAttempts store identifier + (t :: t2 :: ts2).length := by
        simp only [List.length_cons]
        omega
      rw [hlen]

/-- C7: once `maxAttempts` consecutive failed attempts have been
recorded with no intervening success, the last of them inside the
window, and no block currently in force, the next `checkRateLimit` call
denies the request, sets `blockedUntil = now + blockDurationMs` on the
row as a side effect, and reports that expiry, which lies in the
future. -/
theorem blocked_after_max_consecutive_failures
    (cfg : RateLimitConfig) (store : List LoginAttemptRecord) (identifier : String)
    (ts : List Int) (now : Int) (nid : Nat) (hne : ts ≠ [])
    (hlen : ts.length = cfg.maxAttempts)
    (hwin : now - cfg.windowMs ≤ ts.getLast hne)
    (hblk : ∀ b, initBlocked store identifier = some b → b ≤ now)
    (hdur : 0 < cfg.blockDurationMs) :
    (checkRateLimit cfg (recordFails store identifier ts nid) identifier now .noFault).1
      = { allowed := false, remainingAttempts := 0,
          blockedUntil := some (now + cfg.blockDurationMs) } ∧
    now < now + cfg.blockDurationMs ∧
    initBlocked
      (checkRateLimit cfg (recordFails store identifier ts nid) identifier now .noFault).2
      identifier = some (now + cfg.blockDurationMs) := by
  obtain ⟨rid, hfind⟩ := recordFails_spec identifier nid ts store hne
  have hbact : blockActive (initBlocked store identifier) now = false := by
    rcases hI : initBlocked store identifier with _ | b
    · rfl
    · have hle := hblk b hI
      simp only [blockActive, decide_eq_false_iff_not]
      omega
  have hwexp : windowExpired (some (ts.getLast hne)) (now - cfg.windowMs) = false := by
    simp only [windowExpired, decide_eq_false_iff_not]
    omega
  have hatt : cfg.maxAttempts ≤ initAttempts store identifier + ts.length := by
    rw [hlen]
    omega
  have hchk : checkRateLimit cfg (recordFails store identifier ts nid) identifier now .noFault
      = ({ allowed := false, remainingAttempts := 0,
           blockedUntil := some (now + cfg.blockDurationMs) },
         updateAttemptRecord (recordFails store identifier ts nid) rid (fun r =>
           { r with blockedUntil := some (now + cfg.blockDurationMs) })) := by
    rw [checkRateLimit, if_neg (by decide)]
    simp only []
    rw [hfind]
    simp only []
    rw [if_neg (by rw [hbact]; exact Bool.false_ne_true),
        if_neg (by rw [hwexp]; exact Bool.false_ne_true),
        if_pos hatt, if_neg (by decide)]
  refine ⟨by rw [hchk], by omega, ?_⟩
  rw [hchk]
  simp only []
  rw [initBlocked, findAttemptRecord_update, hfind]
  simp only [Option.map_some']
  rw [if_pos (beq_self_eq_true rid)]

/-- C7 witness: five consecutive failures on the email limiter, then a
denied check that stamps the future block expiry. -/
theorem blocked_after_max_consecutive_failures_witness :
    (checkRateLimit emailRateLimiterConfig
        (recordFails [] "1.2.3.4" [100, 200, 300, 400, 500] 77) "1.2.3.4" 600 .noFault).1
      = { allowed := false, remainingAttempts := 0,
          blockedUntil := some (600 + emailRateLimiterConfig.blockDurationMs) } ∧
    (600 : Int) < 600 + emailRateLimiterConfig.blockDurationMs ∧
    initBlocked
      (checkRateLimit emailRateLimiterConfig
        (recordFails [] "1.2.3.4" [100, 200, 300, 400, 500] 77) "1.2.3.4" 600 .noFault).2
      "1.2.3.4" = some (600 + emailRateLimiterConfig.blockDurationMs) :=
  blocked_after_max_consecutive_failures emailRateLimiterConfig [] "1.2.3.4"
    [100, 200, 300, 400, 500] 600 77 (by decide) (by decide) (by decide)
    (fun b hb => by simp [initBlocked, findAttemptRecord] at hb) (by decide)
